import Mathlib

/-!
Verification of the Architecta planning/review core of `knowledge-os`.

Shallow embedding of:
* `packages/architecta/packages/core/src/orchestrator/state.ts` (workflow state machine),
* `packages/architecta/packages/core/src/orchestrator/index.ts` (orchestrator, router),
* `packages/architecta/packages/core/src/sessions/planner-tools.ts` (conversation engine,
  plan assembly and defaulting),
* the review session's `parseReviewResult` and helpers (scorer).

TypeScript values map as follows: machine numbers become `Int` (all numbers in these
files are small integers), strings become `String`, `T | undefined` / `T | null`
optionals become `Option T`, arrays become `List`, and the JavaScript truthiness of
`x || d` is modelled explicitly (`undefined`, `null` and `""` are falsy; objects and
arrays, including the empty array, are truthy).  `Date` timestamps are modelled by an
explicit `now : Nat` argument standing for `new Date()`.  The LLM agent is the single
external effect: its responses are supplied as an explicit oracle list, and a thrown
exception is modelled as an error-valued result together with the state as mutated up
to the throw point.
-/

namespace Architecta

/-- JavaScript `x || d` on an optional string: `undefined`/`null` and the empty
string are falsy and select the default. -/
def jsOrStr (x : Option String) (d : String) : String :=
  match x with
  | Option.none => d
  | Option.some s => if s = "" then d else s

/-- JavaScript `x || d` on an optional list: only `undefined`/`null` are falsy;
an empty array is truthy and kept. -/
def jsOrList {α : Type} (x : Option (List α)) (d : List α) : List α :=
  match x with
  | Option.none => d
  | Option.some l => l

/-- JavaScript head-or-default `xs[0] || d` on a string array: an absent element
and the empty string both select the default. -/
def jsHeadOr (xs : List String) (d : String) : String :=
  match xs with
  | [] => d
  | s :: _ => if s = "" then d else s

/-! ## Core types (`types.ts`) -/

/-- Workflow phases (`Phase` in `types.ts`). -/
inductive Phase
  | idle
  | planning
  | reviewing
  | complete
deriving DecidableEq, Repr

/-- Confidence levels for routing decisions (`ConfidenceLevel`). -/
inductive ConfidenceLevel
  | high
  | medium
  | low
deriving DecidableEq, Repr

/-- Playbook definition (`Playbook`); `type` is one of the nine playbook-type
string literals, kept as a string as in the source. -/
structure Playbook where
  type : String
  name : String
  description : String
  reasoning : String
deriving DecidableEq, Repr

/-- One option of a clarifying question. -/
structure QuestionOption where
  value : String
  label : String
  description : Option String
deriving DecidableEq, Repr

/-- A clarifying question from the planner (`ClarifyingQuestion`). -/
structure ClarifyingQuestion where
  id : String
  question : String
  options : List QuestionOption
  allowMultiple : Option Bool
deriving DecidableEq, Repr

/-- A task as it arrives in the raw `output_plan` tool input: the fields the
model may omit (`humanRole?`, `risk?`, `complexity?`, `dependsOn?` in the cast
at `planner-tools.ts:481-486`, plus the always-optional `humanActionType?`,
`humanActionDetail?`) are `Option`s. -/
structure RawTask where
  id : Int
  title : String
  description : String
  humanRole : Option String
  humanActionType : Option String
  humanActionDetail : Option String
  risk : Option String
  complexity : Option String
  dependsOn : Option (List Int)
  requirements : List String
  acceptanceCriteria : List String
deriving DecidableEq, Repr

/-- A task within a plan (`Task` in `types.ts`) after defaulting; the enum-typed
fields are strings at runtime because the tool input is cast unchecked. -/
structure Task where
  id : Int
  title : String
  description : String
  humanRole : String
  humanActionType : Option String
  humanActionDetail : Option String
  risk : String
  complexity : String
  dependsOn : List Int
  requirements : List String
  acceptanceCriteria : List String
  status : String
deriving DecidableEq, Repr

/-- The raw input of an `output_plan` tool call (`planner-tools.ts:477-487`). -/
structure PlanToolInput where
  title : String
  repo : Option String
  flow : Option (List String)
  tasks : List RawTask
deriving DecidableEq, Repr

/-- A plan produced by the planning session (`Plan` in `types.ts`). -/
structure Plan where
  raw : String
  repo : String
  flow : List String
  title : String
  playbook : Playbook
  tasks : List Task
deriving DecidableEq, Repr

/-- Actions the orchestrator can take after review (`ReviewAction`). -/
inductive ReviewAction
  | approve
  | request_changes (issues : List String)
  | iterate (reason : String)
  | escalate (reason : String)
deriving DecidableEq, Repr

/-- Result of checking a single acceptance criterion (`CriteriaResult`). -/
structure CriteriaResult where
  taskId : Int
  criterion : String
  passed : Bool
  evidence : String
deriving DecidableEq, Repr

/-- Result of a review session (`ReviewResult`). -/
structure ReviewResult where
  planId : String
  confidence : Int
  confidenceLevel : ConfidenceLevel
  criteriaResults : List CriteriaResult
  issues : List String
  summary : String
  recommendedAction : ReviewAction
deriving DecidableEq, Repr

/-- Implementation to review (`Implementation`); `type` is one of the string
literals `pr` / `branch` / `local`. -/
structure Implementation where
  type : String
  identifier : String
  diff : Option String
  files : Option (List String)
deriving DecidableEq, Repr

/-- Workflow state (`WorkflowState`); `createdAt`/`updatedAt` are wall-clock
timestamps, modelled as naturals supplied by an explicit `now` argument. -/
structure WorkflowState where
  id : String
  phase : Phase
  requirement : Option String
  plan : Option Plan
  implementation : Option Implementation
  reviews : List ReviewResult
  iterations : Int
  createdAt : Nat
  updatedAt : Nat
deriving DecidableEq, Repr

/-- Configuration for the orchestrator (`OrchestratorConfig`). -/
structure OrchestratorConfig where
  workDir : String
  maxIterations : Int
  thresholdHigh : Int
  thresholdMedium : Int
  autoApproveHighConfidence : Bool
deriving DecidableEq, Repr

/-! ## Workflow state machine (`orchestrator/state.ts`) -/

/-- `createWorkflow`: a fresh workflow state. -/
def createWorkflow (id : String) (now : Nat) : WorkflowState :=
  { id := id
    phase := Phase.idle
    requirement := Option.none
    plan := Option.none
    implementation := Option.none
    reviews := []
    iterations := 0
    createdAt := now
    updatedAt := now }

/-- `startPlanning`: enter the planning phase with a requirement. -/
def startPlanning (state : WorkflowState) (requirement : String) (now : Nat) :
    WorkflowState :=
  { state with phase := Phase.planning, requirement := Option.some requirement,
               updatedAt := now }

/-- `completePlanning`: record the produced plan. -/
def completePlanning (state : WorkflowState) (plan : Plan) (now : Nat) :
    WorkflowState :=
  { state with plan := Option.some plan, updatedAt := now }

/-- `startReview`: enter the reviewing phase with an implementation. -/
def startReview (state : WorkflowState) (implementation : Implementation)
    (now : Nat) : WorkflowState :=
  { state with phase := Phase.reviewing,
               implementation := Option.some implementation, updatedAt := now }

/-- `completeReview`: append the review result. -/
def completeReview (state : WorkflowState) (result : ReviewResult) (now : Nat) :
    WorkflowState :=
  { state with reviews := state.reviews ++ [result], updatedAt := now }

/-- `completeWorkflow`: mark the workflow complete (no guard in the source). -/
def completeWorkflow (state : WorkflowState) (now : Nat) : WorkflowState :=
  { state with phase := Phase.complete, updatedAt := now }

/-- `startIteration`: back to planning, incrementing the iteration counter. -/
def startIteration (state : WorkflowState) (now : Nat) : WorkflowState :=
  { state with phase := Phase.planning, iterations := state.iterations + 1,
               updatedAt := now }

/-- `canTransitionTo`: the transition-guard predicate from `state.ts`. -/
def canTransitionTo (state : WorkflowState) (phase : Phase) : Bool :=
  match phase with
  | Phase.idle => false
  | Phase.planning =>
      state.phase = Phase.idle ∨ state.phase = Phase.reviewing
  | Phase.reviewing =>
      state.phase = Phase.planning ∧ state.plan ≠ Option.none
  | Phase.complete => state.phase = Phase.reviewing

/-! ## Router (`Orchestrator.route` in `orchestrator/index.ts`) -/

/-- The routing verdicts of `Orchestrator.route`. -/
inductive RouteAction
  | approve
  | human_review
  | iterate
  | escalate
deriving DecidableEq, Repr

/-- The `(action, reason)` pair returned by `Orchestrator.route`. -/
structure RouteDecision where
  action : RouteAction
  reason : String
deriving DecidableEq, Repr

/-- `Orchestrator.route`: pure decision function over the review result, the
orchestrator config and the workflow's current iteration counter
(`this.state.iterations`). -/
def route (config : OrchestratorConfig) (iterations : Int)
    (result : ReviewResult) : RouteDecision :=
  if result.confidenceLevel = ConfidenceLevel.high then
    if config.autoApproveHighConfidence then
      { action := RouteAction.approve
        reason := "Confidence " ++ toString result.confidence ++ "% - auto-approved" }
    else
      { action := RouteAction.human_review
        reason := "Confidence " ++ toString result.confidence ++ "% - quick approval needed" }
  else if result.confidenceLevel = ConfidenceLevel.medium then
    { action := RouteAction.human_review
      reason := "Confidence " ++ toString result.confidence ++ "% - review recommended" }
  else if iterations ≥ config.maxIterations then
    { action := RouteAction.escalate
      reason := "Max iterations (" ++ toString config.maxIterations ++
        ") reached with low confidence" }
  else
    match result.recommendedAction with
    | ReviewAction.escalate reason =>
        { action := RouteAction.escalate, reason := reason }
    | ReviewAction.iterate reason =>
        { action := RouteAction.iterate, reason := reason }
    | _ =>
        { action := RouteAction.iterate
          reason := "Low confidence - iteration recommended" }

/-- Spec-side router decision table, written from the spec's words as amended:
the explicit escalate recommendation takes effect only in the low tier with
iterations remaining; high and medium tiers ignore the recommendation, and an
exhausted iteration budget escalates regardless of the recommendation. -/
def routeSpecAction (autoApprove : Bool) (iterations maxIterations : Int)
    (level : ConfidenceLevel) (recommended : ReviewAction) : RouteAction :=
  match level with
  | ConfidenceLevel.high =>
      if autoApprove then RouteAction.approve else RouteAction.human_review
  | ConfidenceLevel.medium => RouteAction.human_review
  | ConfidenceLevel.low =>
      if iterations ≥ maxIterations then RouteAction.escalate
      else
        match recommended with
        | ReviewAction.escalate _ => RouteAction.escalate
        | _ => RouteAction.iterate

/-! ## Conversation engine (`sessions/planner-tools.ts`) -/

/-- One content block of an agent response: free text or one of the three
structured tool calls (`ask_clarifying_questions`, `propose_playbook`,
`output_plan`), each carrying the `tool_use` block id. -/
inductive ContentBlock
  | text (s : String)
  | askQuestions (id : String) (questions : List ClarifyingQuestion)
  | proposePlaybook (id : String) (playbook : Playbook)
  | outputPlan (id : String) (input : PlanToolInput)
deriving DecidableEq, Repr

/-- Content of a user-role message: plain text or a single `tool_result`
block (the only two shapes pushed by the source). -/
inductive UserContent
  | text (s : String)
  | toolResult (toolUseId : String) (content : String)
deriving DecidableEq, Repr

/-- One transcript turn (`MessageParam`). -/
inductive Message
  | user (content : UserContent)
  | assistant (content : List ContentBlock)
deriving DecidableEq, Repr

/-- Per-workflow conversation state (`ConversationState`). -/
structure ConversationState where
  messages : List Message
  pendingQuestions : Option (List ClarifyingQuestion)
  pendingPlaybook : Option Playbook
  acceptedPlaybook : Option Playbook
  lastToolUseId : Option String
deriving DecidableEq, Repr

/-- The module-level `conversationStates` map, keyed by workflow id, modelled
as an association list. -/
abbrev ConvStore : Type := List (String × ConversationState)

/-- `conversationStates.get(workflowId)`. -/
def storeGet (store : ConvStore) (workflowId : String) :
    Option ConversationState :=
  match store with
  | [] => Option.none
  | (k, v) :: rest => if k = workflowId then Option.some v else storeGet rest workflowId

/-- `conversationStates.set(workflowId, state)` (replace or insert). -/
def storeSet (store : ConvStore) (workflowId : String) (state : ConversationState) :
    ConvStore :=
  match store with
  | [] => [(workflowId, state)]
  | (k, v) :: rest =>
      if k = workflowId then (k, state) :: rest
      else (k, v) :: storeSet rest workflowId state

/-- `conversationStates.delete(workflowId)` (`clearConversationState`). -/
def clearConversationState (store : ConvStore) (workflowId : String) : ConvStore :=
  match store with
  | [] => []
  | (k, v) :: rest =>
      if k = workflowId then rest else (k, v) :: clearConversationState rest workflowId

/-- An agent response: content blocks plus the `stop_reason`. -/
structure AgentResponse where
  content : List ContentBlock
  stopReason : String
deriving DecidableEq, Repr

/-- One outcome of `client.messages.create`: a response, or a thrown transport
error.  The agent is the single external effect; a run is parameterized by the
list of outcomes it will produce, consumed in order. -/
inductive AgentResult
  | success (response : AgentResponse)
  | failure (message : String)
deriving DecidableEq, Repr

/-- Result of a conversation-loop entry point: a normal return (`Plan` or
`null`), a thrown state/protocol error, a thrown agent-call error, or the
exhaustion of the response oracle (the loop would invoke the agent again). -/
inductive LoopResult
  | finished (plan : Option Plan)
  | thrown (message : String)
  | agentError (message : String)
  | outOfResponses
deriving DecidableEq, Repr

/-- The default playbook built inline at `planner-tools.ts:500-505` when no
playbook was ever accepted. -/
def fallbackPlaybook : Playbook :=
  { type := "new_feature"
    name := "New Feature"
    description := "Adding new functionality"
    reasoning := "Default playbook" }

/-- The per-task defaulting of `planner-tools.ts:490-497`: spread the raw task,
apply `||`-defaults to `humanRole`, `risk`, `complexity`, `dependsOn`, and
stamp `status: "pending"`. -/
def applyTaskDefaults (t : RawTask) : Task :=
  { id := t.id
    title := t.title
    description := t.description
    humanRole := jsOrStr t.humanRole "must_verify"
    humanActionType := t.humanActionType
    humanActionDetail := t.humanActionDetail
    risk := jsOrStr t.risk "medium"
    complexity := jsOrStr t.complexity "medium"
    dependsOn := jsOrList t.dependsOn []
    requirements := t.requirements
    acceptanceCriteria := t.acceptanceCriteria
    status := "pending" }

/-- Rendering of a `RawTask` for the plan's `raw` field; stands for the
task's fragment of `JSON.stringify(input, null, 2)`. -/
def renderRawTask (t : RawTask) : String :=
  "(task " ++ toString t.id ++ " " ++ t.title ++ ")"

/-- Deterministic rendering of the tool input; stands for
`JSON.stringify(input, null, 2)` in the source (no claim inspects `raw`). -/
def renderPlanInput (input : PlanToolInput) : String :=
  "(plan " ++ input.title ++ " " ++
    String.intercalate " " (input.tasks.map renderRawTask) ++ ")"

/-- Plan construction in the `output_plan` branch
(`planner-tools.ts:489-514`): default every task, and attach the accepted
playbook or the fallback (`state.acceptedPlaybook || defaultPlaybook`). -/
def assemblePlan (input : PlanToolInput) (acceptedPlaybook : Option Playbook) :
    Plan :=
  { raw := renderPlanInput input
    repo := jsOrStr input.repo ""
    flow := jsOrList input.flow ["builder", "tester", "reviewer"]
    title := input.title
    playbook :=
      match acceptedPlaybook with
      | Option.some pb => pb
      | Option.none => fallbackPlaybook
    tasks := input.tasks.map applyTaskDefaults }

/-- Outcome of scanning one response's content blocks: an early return with
suspended state (questions or playbook pending), or fall-through with the
`plan` local variable. -/
inductive ProcessOutcome
  | suspended (state : ConversationState)
  | fallthrough (plan : Option Plan)
deriving DecidableEq, Repr

/-- The corrective instruction injected after a text-only response
(`planner-tools.ts:530-533`). -/
def correctiveInstruction : String :=
  "Please use ask_clarifying_questions if you need more information, propose_playbook to suggest a workflow template, or output_plan to provide the structured plan."

/-- The `for (const block of response.content)` loop of `runConversationLoop`
(`planner-tools.ts:430-519`): text blocks are emitted and skipped; the first
questions/playbook tool call records pending state, the tool-use id and the
assistant turn, then returns early; an `output_plan` call assembles the plan
and keeps scanning. -/
def processBlocks (state : ConversationState) (allContent : List ContentBlock) :
    List ContentBlock → Option Plan → ProcessOutcome
  | [], plan => ProcessOutcome.fallthrough plan
  | ContentBlock.text _ :: rest, plan => processBlocks state allContent rest plan
  | ContentBlock.askQuestions id qs :: _, _ =>
      ProcessOutcome.suspended
        { state with
            pendingQuestions := Option.some qs
            lastToolUseId := Option.some id
            messages := state.messages ++ [Message.assistant allContent] }
  | ContentBlock.proposePlaybook id pb :: _, _ =>
      ProcessOutcome.suspended
        { state with
            pendingPlaybook := Option.some pb
            lastToolUseId := Option.some id
            messages := state.messages ++ [Message.assistant allContent] }
  | ContentBlock.outputPlan _ input :: rest, _ =>
      processBlocks state allContent rest
        (Option.some (assemblePlan input state.acceptedPlaybook))

/-- `runConversationLoop` (`planner-tools.ts:387-539`): look up the state
(throwing `No conversation state` if absent), consume one agent outcome
(rethrowing a failed call unchanged), process the content blocks, and on a
text-only `end_turn` response append the assistant turn plus the corrective
instruction and recurse on the remaining oracle.  The source performs the
state lookup once before the agent call; here the oracle list is matched
first so the recursion is structural — equivalent, since the lookup has no
effect. -/
def runConversationLoop (workflowId : String) :
    ConvStore → List AgentResult → LoopResult × ConvStore
  | store, [] =>
    (match storeGet store workflowId with
     | Option.none => (LoopResult.thrown "No conversation state", store)
     | Option.some _ => (LoopResult.outOfResponses, store))
  | store, AgentResult.failure e :: _ =>
    (match storeGet store workflowId with
     | Option.none => (LoopResult.thrown "No conversation state", store)
     | Option.some _ => (LoopResult.agentError e, store))
  | store, AgentResult.success resp :: rest =>
    (match storeGet store workflowId with
     | Option.none => (LoopResult.thrown "No conversation state", store)
     | Option.some state =>
       match processBlocks state resp.content resp.content Option.none with
       | ProcessOutcome.suspended st =>
           (LoopResult.finished Option.none, storeSet store workflowId st)
       | ProcessOutcome.fallthrough plan =>
           if resp.stopReason = "end_turn" ∧ plan = Option.none then
             runConversationLoop workflowId
               (storeSet store workflowId
                 { state with
                     messages := state.messages ++
                       [Message.assistant resp.content,
                        Message.user (UserContent.text correctiveInstruction)] })
               rest
           else (LoopResult.finished plan, store))

/-- `runToolBasedPlanningSession` (`planner-tools.ts:216-242`): install a fresh
conversation state seeded with the requirement turn and run the loop. -/
def runToolBasedPlanningSession (workflowId : String) (requirement : String)
    (workDir : String) (store : ConvStore) (responses : List AgentResult) :
    LoopResult × ConvStore :=
  let state : ConversationState :=
    { messages :=
        [Message.user (UserContent.text
          ("Working directory: " ++ workDir ++ "\n\nRequirement: " ++ requirement))]
      pendingQuestions := Option.none
      pendingPlaybook := Option.none
      acceptedPlaybook := Option.none
      lastToolUseId := Option.none }
  runConversationLoop workflowId (storeSet store workflowId state) responses

/-- Rendering of `${expr}` for a possibly-undefined string inside a JS
template literal: `undefined` renders as the text `undefined`. -/
def jsRender (x : Option String) : String :=
  match x with
  | Option.none => "undefined"
  | Option.some s => s

/-- The answer formatting of `continueWithAnswers` (`planner-tools.ts:262-266`):
for each pending question, look up the submitted answer, resolve it to an
option label when one matches, and render one line per question. -/
def formatAnswers (qs : List ClarifyingQuestion)
    (answers : List (String × String)) : String :=
  String.intercalate "\n" (qs.map (fun q =>
    let answer : Option String :=
      match answers.find? (fun p => p.1 = q.id) with
      | Option.none => Option.none
      | Option.some p => Option.some p.2
    let option := q.options.find? (fun o => answer == Option.some o.value)
    q.question ++ ": " ++
      (match option with
       | Option.some o => jsOrStr (Option.some o.label) (jsRender answer)
       | Option.none => jsRender answer)))

/-- `continueWithAnswers` (`planner-tools.ts:247-284`): throws
`No pending questions to answer` when the state is missing or no questions are
pending; otherwise appends the synthesized `tool_result` turn, clears the
pending-questions slot, and re-enters the loop. -/
def continueWithAnswers (workflowId : String)
    (answers : List (String × String)) (store : ConvStore)
    (responses : List AgentResult) : LoopResult × ConvStore :=
  match storeGet store workflowId with
  | Option.none => (LoopResult.thrown "No pending questions to answer", store)
  | Option.some state =>
    match state.pendingQuestions with
    | Option.none => (LoopResult.thrown "No pending questions to answer", store)
    | Option.some qs =>
      let formattedAnswers := formatAnswers qs answers
      let toolUseId := jsOrStr state.lastToolUseId "questions_answered"
      let st2 : ConversationState :=
        { state with
            messages := state.messages ++
              [Message.user (UserContent.toolResult toolUseId
                ("User's answers:\n" ++ formattedAnswers ++
                 "\n\nPlease proceed with creating the plan based on these choices."))]
            pendingQuestions := Option.none }
      runConversationLoop workflowId (storeSet store workflowId st2) responses

/-- `acceptPlaybook` (`planner-tools.ts:289-321`): throws when no playbook is
pending; otherwise records it as accepted, appends the `tool_result` turn,
clears the pending slot, and re-enters the loop. -/
def acceptPlaybook (workflowId : String) (store : ConvStore)
    (responses : List AgentResult) : LoopResult × ConvStore :=
  match storeGet store workflowId with
  | Option.none => (LoopResult.thrown "No pending playbook to accept", store)
  | Option.some state =>
    match state.pendingPlaybook with
    | Option.none => (LoopResult.thrown "No pending playbook to accept", store)
    | Option.some pb =>
      let toolUseId := jsOrStr state.lastToolUseId "playbook_accepted"
      let st2 : ConversationState :=
        { state with
            acceptedPlaybook := Option.some pb
            messages := state.messages ++
              [Message.user (UserContent.toolResult toolUseId
                ("User has accepted the \"" ++ pb.name ++
                 "\" playbook. Now create the detailed implementation plan using the output_plan tool."))]
            pendingPlaybook := Option.none }
      runConversationLoop workflowId (storeSet store workflowId st2) responses

/-- `rejectPlaybook` (`planner-tools.ts:326-356`). -/
def rejectPlaybook (workflowId : String) (feedback : String) (store : ConvStore)
    (responses : List AgentResult) : LoopResult × ConvStore :=
  match storeGet store workflowId with
  | Option.none => (LoopResult.thrown "No pending playbook to reject", store)
  | Option.some state =>
    match state.pendingPlaybook with
    | Option.none => (LoopResult.thrown "No pending playbook to reject", store)
    | Option.some _ =>
      let toolUseId := jsOrStr state.lastToolUseId "playbook_rejected"
      let st2 : ConversationState :=
        { state with
            messages := state.messages ++
              [Message.user (UserContent.toolResult toolUseId
                ("User rejected the playbook. Feedback: " ++ feedback ++
                 "\n\nPlease propose a different playbook or ask clarifying questions."))]
            pendingPlaybook := Option.none }
      runConversationLoop workflowId (storeSet store workflowId st2) responses

/-- `refineToolBasedPlan` (`planner-tools.ts:361-382`): throws when no
conversation state exists; otherwise appends the feedback turn and re-enters
the loop. -/
def refineToolBasedPlan (workflowId : String) (feedback : String)
    (store : ConvStore) (responses : List AgentResult) :
    LoopResult × ConvStore :=
  match storeGet store workflowId with
  | Option.none => (LoopResult.thrown "No conversation state found", store)
  | Option.some state =>
    let st2 : ConversationState :=
      { state with
          messages := state.messages ++
            [Message.user (UserContent.text
              ("Please refine the plan based on this feedback:\n\n" ++ feedback))] }
    runConversationLoop workflowId (storeSet store workflowId st2) responses

/-- `hasPendingQuestions` (`planner-tools.ts:551-553`):
`get(id)?.pendingQuestions !== null` — for a missing state the optional chain
yields `undefined`, and `undefined !== null` is `true`. -/
def hasPendingQuestions (store : ConvStore) (workflowId : String) : Bool :=
  match storeGet store workflowId with
  | Option.none => true
  | Option.some st => st.pendingQuestions.isSome

/-- `getPendingQuestions` (`planner-tools.ts:558-560`):
`get(id)?.pendingQuestions || null` (an array, even empty, is truthy). -/
def getPendingQuestions (store : ConvStore) (workflowId : String) :
    Option (List ClarifyingQuestion) :=
  (storeGet store workflowId).bind (fun st => st.pendingQuestions)

/-- `hasPendingPlaybook` (`planner-tools.ts:565-567`). -/
def hasPendingPlaybook (store : ConvStore) (workflowId : String) : Bool :=
  match storeGet store workflowId with
  | Option.none => true
  | Option.some st => st.pendingPlaybook.isSome

/-- `getPendingPlaybook` (`planner-tools.ts:572-574`). -/
def getPendingPlaybook (store : ConvStore) (workflowId : String) :
    Option Playbook :=
  (storeGet store workflowId).bind (fun st => st.pendingPlaybook)

/-! ## Review scorer (`parseReviewResult` and helpers in the review session)

The source extracts fields from the narrative with JavaScript regexes; here
each regex is embedded as an explicit scan over the character list with the
same leftmost-match, greedy/backtracking semantics.  `toLowerCase` is modelled
on the ASCII range (the patterns involved are ASCII). -/

/-- ASCII lower-casing of one character. -/
def asciiLower (c : Char) : Char :=
  if 'A' ≤ c ∧ c ≤ 'Z' then Char.ofNat (c.toNat + 32) else c

/-- JavaScript regex `\s` on the ASCII range. -/
def isWS (c : Char) : Bool :=
  c = ' ' ∨ c = '\t' ∨ c = '\n' ∨ c = '\r' ∨ c = '\x0b' ∨ c = '\x0c'

/-- JavaScript regex `\d`. -/
def isDigitChar (c : Char) : Bool :=
  '0' ≤ c ∧ c ≤ '9'

/-- `parseInt` on a nonempty digit string. -/
def digitsToNat (ds : List Char) : Nat :=
  ds.foldl (fun acc c => acc * 10 + (c.toNat - '0'.toNat)) 0

/-- Match a literal (given lower-cased) case-insensitively at the head,
returning the rest. -/
def dropLitCI : List Char → List Char → Option (List Char)
  | [], s => Option.some s
  | _ :: _, [] => Option.none
  | p :: ps, c :: cs => if asciiLower c = p then dropLitCI ps cs else Option.none

/-- Match a literal case-sensitively at the head, returning the rest. -/
def dropLit : List Char → List Char → Option (List Char)
  | [], s => Option.some s
  | _ :: _, [] => Option.none
  | p :: ps, c :: cs => if c = p then dropLit ps cs else Option.none

/-- Attempt of `/\*\*Confidence Score:\*\*\s*(\d+)/i` at one position. -/
def confAt (s : List Char) : Option Nat :=
  match dropLitCI ("**confidence score:**".toList) s with
  | Option.none => Option.none
  | Option.some rest =>
    let ds := (rest.dropWhile isWS).takeWhile isDigitChar
    if ds = [] then Option.none else Option.some (digitsToNat ds)

/-- Leftmost match of the confidence regex (`parseReviewResult` line 118). -/
def findConfidence : List Char → Option Nat
  | [] => Option.none
  | c :: cs =>
    match confAt (c :: cs) with
    | Option.some n => Option.some n
    | Option.none => findConfidence cs

/-- Attempt of `/\*\*Recommendation:\*\*\s*(APPROVE|REQUEST_CHANGES|ITERATE|ESCALATE)/i`
at one position; the captured keyword is returned already upper-cased, as the
source immediately applies `toUpperCase()`. -/
def recAt (s : List Char) : Option String :=
  match dropLitCI ("**recommendation:**".toList) s with
  | Option.none => Option.none
  | Option.some rest =>
    let r := rest.dropWhile isWS
    if (dropLitCI ("approve".toList) r).isSome then Option.some "APPROVE"
    else if (dropLitCI ("request_changes".toList) r).isSome then
      Option.some "REQUEST_CHANGES"
    else if (dropLitCI ("iterate".toList) r).isSome then Option.some "ITERATE"
    else if (dropLitCI ("escalate".toList) r).isSome then Option.some "ESCALATE"
    else Option.none

/-- Leftmost match of the recommendation regex (line 127). -/
def findRecommendation : List Char → Option String
  | [] => Option.none
  | c :: cs =>
    match recAt (c :: cs) with
    | Option.some k => Option.some k
    | Option.none => findRecommendation cs

/-- Tail of the issue regex after `\*\*:`, namely `\s*([^\n]+)`: try the
whitespace run from longest (greedy `\s*`) down to empty, then capture a
nonempty greedy `[^\n]+`.  Returns the capture and the rest of the input. -/
def issueTailAt (k : Nat) (r : List Char) : Option (List Char × List Char) :=
  let s := r.drop k
  let g := s.takeWhile (fun c => c ≠ '\n')
  if g = [] then Option.none else Option.some (g, s.drop g.length)

/-- Backtracking over the `\s*` length, longest first. -/
def issueTailFrom : Nat → List Char → Option (List Char × List Char)
  | 0, r => issueTailAt 0 r
  | Nat.succ k, r =>
    match issueTailAt (Nat.succ k) r with
    | Option.some x => Option.some x
    | Option.none => issueTailFrom k r

/-- Attempt of `/\d+\.\s+\*\*([^*]+)\*\*:\s*([^\n]+)/` at one position,
returning the rendered issue string and the rest after the match. -/
def issueAt (s : List Char) : Option (String × List Char) :=
  let ds := s.takeWhile isDigitChar
  if ds = [] then Option.none else
  match s.drop ds.length with
  | '.' :: r1 =>
    let ws := r1.takeWhile isWS
    if ws = [] then Option.none else
    (match r1.drop ws.length with
     | '*' :: '*' :: r2 =>
       let g1 := r2.takeWhile (fun c => c ≠ '*')
       if g1 = [] then Option.none else
       (match r2.drop g1.length with
        | '*' :: '*' :: ':' :: r3 =>
          (match issueTailFrom ((r3.takeWhile isWS).length) r3 with
           | Option.none => Option.none
           | Option.some (g2, r4) =>
             Option.some (String.mk g1 ++ ": " ++ String.mk g2, r4))
        | _ => Option.none)
     | _ => Option.none)
  | _ => Option.none

/-- Global scan of the issue regex (`parseIssues`): emit each match in order,
resuming after the end of the previous match.  The fuel is the input length;
every step consumes at least one character, so it never runs out early. -/
def parseIssuesAux : Nat → List Char → List String
  | 0, _ => []
  | _, [] => []
  | Nat.succ fuel, c :: cs =>
    match issueAt (c :: cs) with
    | Option.some (issue, rest) => issue :: parseIssuesAux fuel rest
    | Option.none => parseIssuesAux fuel cs

/-- `parseIssues` (lines 200-212). -/
def parseIssues (response : List Char) : List String :=
  parseIssuesAux (response.length + 1) response

/-- JavaScript `String.prototype.includes`. -/
def listContains : List Char → List Char → Bool
  | hay, pat =>
    match hay with
    | [] => pat = []
    | _ :: rest => pat.isPrefixOf hay ∨ listContains rest pat

/-- `parseCriteriaResults` (lines 175-195): a criterion passes when the
response contains a check-mark character and, lower-cased, contains the first
twenty characters of the lower-cased criterion. -/
def parseCriteriaResults (response : List Char) (plan : Plan) :
    List CriteriaResult :=
  (plan.tasks.map (fun task =>
    task.acceptanceCriteria.map (fun criterion =>
      { taskId := task.id
        criterion := criterion
        passed := listContains response ['✅'] ∧
          listContains (response.map asciiLower)
            ((criterion.toList.map asciiLower).take 20)
        evidence := "" }))).flatten

/-- Leftmost occurrence of a case-sensitive literal, returning the rest. -/
def findAfter (lit : List Char) : List Char → Option (List Char)
  | [] => dropLit lit []
  | c :: cs =>
    match dropLit lit (c :: cs) with
    | Option.some r => Option.some r
    | Option.none => findAfter lit cs

/-- The lazy capture `([\s\S]*?)(?=\n##|$)`: the shortest prefix after which
the text starts with a new section marker, or the whole rest. -/
def lazyUntil : List Char → List Char
  | [] => []
  | c :: cs =>
    if (dropLit ("\n##".toList) (c :: cs)).isSome then []
    else c :: lazyUntil cs

/-- JavaScript `trim()` on the ASCII whitespace range. -/
def trimJS (s : List Char) : List Char :=
  ((s.dropWhile isWS).reverse.dropWhile isWS).reverse

/-- The summary extraction `/## Summary\n\n([\s\S]*?)(?=\n##|$)/` followed by
`trim()` (lines 141-144). -/
def extractSummary (response : List Char) : String :=
  match findAfter ("## Summary\n\n".toList) response with
  | Option.none => ""
  | Option.some rest => String.mk (trimJS (lazyUntil rest))

/-- `getConfidenceLevel` (lines 166-170). -/
def getConfidenceLevel (confidence : Int) : ConfidenceLevel :=
  if confidence ≥ 90 then ConfidenceLevel.high
  else if confidence ≥ 70 then ConfidenceLevel.medium
  else ConfidenceLevel.low

/-- `buildRecommendedAction` (lines 217-236); `issues[0] || default` treats a
missing first issue and the empty string as falsy. -/
def buildRecommendedAction (recommendation : String) (issues : List String) :
    ReviewAction :=
  if recommendation = "APPROVE" then ReviewAction.approve
  else if recommendation = "REQUEST_CHANGES" then
    ReviewAction.request_changes issues
  else if recommendation = "ITERATE" then
    ReviewAction.iterate (jsHeadOr issues "Issues found in review")
  else if recommendation = "ESCALATE" then
    ReviewAction.escalate (jsHeadOr issues "Major issues require human review")
  else ReviewAction.iterate "Review inconclusive"

/-- `parseReviewResult` (lines 116-161): extract confidence (default 50),
recommendation keyword (default `ITERATE`), criteria results, issues and
summary, and build the review result.  Total: no input raises. -/
def parseReviewResult (response : String) (plan : Plan) : ReviewResult :=
  let cs := response.toList
  let confidence : Int :=
    match findConfidence cs with
    | Option.some n => Int.ofNat n
    | Option.none => 50
  let recommendationStr := (findRecommendation cs).getD "ITERATE"
  let issues := parseIssues cs
  { planId := plan.title
    confidence := confidence
    confidenceLevel := getConfidenceLevel confidence
    criteriaResults := parseCriteriaResults cs plan
    issues := issues
    summary := extractSummary cs
    recommendedAction := buildRecommendedAction recommendationStr issues }

/-! ## Orchestrator operations (`orchestrator/index.ts`)

Each `async` method of `Orchestrator` awaits one session; the session's
outcome (a plan, `null`, or a thrown error) is supplied as an explicit
argument.  A method is modelled as `(Option String) × WorkflowState`: the
error message of a thrown exception (or `none`), paired with `this.state` as
left by the method, including any mutation performed before the throw. -/

/-- Outcome of one awaited planning-session call: a returned `Plan | null`,
or a thrown error. -/
inductive SessionOutcome
  | ok (plan : Option Plan)
  | err (message : String)
deriving DecidableEq, Repr

/-- Outcome of one awaited review-session call. -/
inductive ReviewOutcome
  | ok (result : ReviewResult)
  | err (message : String)
deriving DecidableEq, Repr

/-- `Orchestrator.plan`: `startPlanning` happens before the awaited session,
so a failed session still leaves the workflow in the planning phase. -/
def orchPlan (s : WorkflowState) (requirement : String)
    (outcome : SessionOutcome) (now : Nat) : Option String × WorkflowState :=
  let s1 := startPlanning s requirement now
  match outcome with
  | SessionOutcome.ok (Option.some p) => (Option.none, completePlanning s1 p now)
  | SessionOutcome.ok Option.none => (Option.none, s1)
  | SessionOutcome.err m => (Option.some m, s1)

/-- `Orchestrator.answerQuestions`: `this.state` is only touched by
`completePlanning` on a returned plan. -/
def orchAnswerQuestions (s : WorkflowState) (outcome : SessionOutcome)
    (now : Nat) : Option String × WorkflowState :=
  match outcome with
  | SessionOutcome.ok (Option.some p) => (Option.none, completePlanning s p now)
  | SessionOutcome.ok Option.none => (Option.none, s)
  | SessionOutcome.err m => (Option.some m, s)

/-- `Orchestrator.acceptPlaybook`. -/
def orchAcceptPlaybook (s : WorkflowState) (outcome : SessionOutcome)
    (now : Nat) : Option String × WorkflowState :=
  match outcome with
  | SessionOutcome.ok (Option.some p) => (Option.none, completePlanning s p now)
  | SessionOutcome.ok Option.none => (Option.none, s)
  | SessionOutcome.err m => (Option.some m, s)

/-- `Orchestrator.rejectPlaybook`. -/
def orchRejectPlaybook (s : WorkflowState) (outcome : SessionOutcome)
    (now : Nat) : Option String × WorkflowState :=
  match outcome with
  | SessionOutcome.ok (Option.some p) => (Option.none, completePlanning s p now)
  | SessionOutcome.ok Option.none => (Option.none, s)
  | SessionOutcome.err m => (Option.some m, s)

/-- `Orchestrator.refinePlan`: throws when no plan exists yet. -/
def orchRefinePlan (s : WorkflowState) (outcome : SessionOutcome)
    (now : Nat) : Option String × WorkflowState :=
  if s.plan = Option.none then
    (Option.some "No plan to refine. Call plan() first.", s)
  else
    match outcome with
    | SessionOutcome.ok (Option.some p) => (Option.none, completePlanning s p now)
    | SessionOutcome.ok Option.none => (Option.none, s)
    | SessionOutcome.err m => (Option.some m, s)

/-- `Orchestrator.review` (`orchestrator/index.ts:202-220`): throws when no
plan exists; otherwise enters the reviewing phase before the awaited session,
and appends the result on success. -/
def orchReview (s : WorkflowState) (implementation : Implementation)
    (outcome : ReviewOutcome) (now : Nat) : Option String × WorkflowState :=
  if s.plan = Option.none then
    (Option.some "No plan to review against. Call plan() first.", s)
  else
    let s1 := startReview s implementation now
    match outcome with
    | ReviewOutcome.ok r => (Option.none, completeReview s1 r now)
    | ReviewOutcome.err m => (Option.some m, s1)

/-- `Orchestrator.iterate` (`orchestrator/index.ts:271-293`): throws when the
iteration budget is exhausted; otherwise re-enters planning with the counter
incremented before the awaited refinement session. -/
def orchIterate (cfg : OrchestratorConfig) (s : WorkflowState)
    (outcome : SessionOutcome) (now : Nat) : Option String × WorkflowState :=
  if s.iterations ≥ cfg.maxIterations then
    (Option.some ("Max iterations (" ++ toString cfg.maxIterations ++ ") reached"), s)
  else
    let s1 := startIteration s now
    match outcome with
    | SessionOutcome.ok (Option.some p) => (Option.none, completePlanning s1 p now)
    | SessionOutcome.ok Option.none => (Option.none, s1)
    | SessionOutcome.err m => (Option.some m, s1)

/-- `Orchestrator.complete` (`orchestrator/index.ts:298-300`): unconditional
`completeWorkflow`, no guard, no possible error. -/
def orchComplete (s : WorkflowState) (now : Nat) :
    Option String × WorkflowState :=
  (Option.none, completeWorkflow s now)

/-- `Orchestrator.reset`: clear conversation state and start a fresh
workflow. -/
def orchReset (newId : String) (now : Nat) : Option String × WorkflowState :=
  (Option.none, createWorkflow newId now)

/-- One public orchestrator operation together with its session oracle. -/
inductive OrchOp
  | planOp (requirement : String) (outcome : SessionOutcome) (now : Nat)
  | answerQuestionsOp (outcome : SessionOutcome) (now : Nat)
  | acceptPlaybookOp (outcome : SessionOutcome) (now : Nat)
  | rejectPlaybookOp (feedback : String) (outcome : SessionOutcome) (now : Nat)
  | refinePlanOp (feedback : String) (outcome : SessionOutcome) (now : Nat)
  | reviewOp (implementation : Implementation) (outcome : ReviewOutcome) (now : Nat)
  | iterateOp (feedback : String) (outcome : SessionOutcome) (now : Nat)
  | completeOp (now : Nat)
  | resetOp (newId : String) (now : Nat)
deriving DecidableEq, Repr

/-- The workflow state after one public operation (errors propagate to the
caller; `this.state` keeps whatever mutations preceded the throw). -/
def orchStep (cfg : OrchestratorConfig) (s : WorkflowState) :
    OrchOp → WorkflowState
  | OrchOp.planOp req outc now => (orchPlan s req outc now).2
  | OrchOp.answerQuestionsOp outc now => (orchAnswerQuestions s outc now).2
  | OrchOp.acceptPlaybookOp outc now => (orchAcceptPlaybook s outc now).2
  | OrchOp.rejectPlaybookOp _ outc now => (orchRejectPlaybook s outc now).2
  | OrchOp.refinePlanOp _ outc now => (orchRefinePlan s outc now).2
  | OrchOp.reviewOp impl outc now => (orchReview s impl outc now).2
  | OrchOp.iterateOp _ outc now => (orchIterate cfg s outc now).2
  | OrchOp.completeOp now => (orchComplete s now).2
  | OrchOp.resetOp newId now => (orchReset newId now).2

/-- The workflow state reached from an initial state by a sequence of public
operations. -/
def runOrch (cfg : OrchestratorConfig) (init : WorkflowState)
    (ops : List OrchOp) : WorkflowState :=
  ops.foldl (orchStep cfg) init

/-! ## Re-reading defaulted output as raw input

A defaulted task is a raw task in which every optional field happens to be
present; the injection below states that re-reading it this way is the "apply
the defaulting function twice" of the idempotence property. -/

/-- A defaulted `Task`, viewed again as raw `output_plan` input. -/
def taskToRaw (t : Task) : RawTask :=
  { id := t.id
    title := t.title
    description := t.description
    humanRole := Option.some t.humanRole
    humanActionType := t.humanActionType
    humanActionDetail := t.humanActionDetail
    risk := Option.some t.risk
    complexity := Option.some t.complexity
    dependsOn := Option.some t.dependsOn
    requirements := t.requirements
    acceptanceCriteria := t.acceptanceCriteria }

/-- An assembled `Plan`, viewed again as raw `output_plan` input. -/
def planToToolInput (p : Plan) : PlanToolInput :=
  { title := p.title
    repo := Option.some p.repo
    flow := Option.some p.flow
    tasks := p.tasks.map taskToRaw }

/-! ## Concrete fixtures used by witnesses and counterexamples -/

/-- A text-only agent response with `stop_reason` `end_turn`. -/
def textOnlyResponse : AgentResult :=
  AgentResult.success { content := [ContentBlock.text "Let me think about this."]
                        stopReason := "end_turn" }

/-- Default orchestrator configuration (auto-approve off). -/
def cfgNoAuto : OrchestratorConfig :=
  { workDir := "/work", maxIterations := 3, thresholdHigh := 90,
    thresholdMedium := 70, autoApproveHighConfidence := false }

/-- Orchestrator configuration with auto-approve enabled. -/
def cfgAuto : OrchestratorConfig :=
  { cfgNoAuto with autoApproveHighConfidence := true }

/-- A sample clarifying question. -/
def q1 : ClarifyingQuestion :=
  { id := "q1"
    question := "Which type?"
    options := [{ value := "web_app", label := "Web Application",
                  description := Option.none }]
    allowMultiple := Option.none }

/-- A conversation state as just installed by `runToolBasedPlanningSession`. -/
def convFresh : ConversationState :=
  { messages := [Message.user (UserContent.text "Requirement: add logout")]
    pendingQuestions := Option.none
    pendingPlaybook := Option.none
    acceptedPlaybook := Option.none
    lastToolUseId := Option.none }

/-- A conversation state suspended on a clarifying question. -/
def convPending : ConversationState :=
  { convFresh with pendingQuestions := Option.some [q1],
                   lastToolUseId := Option.some "toolu_1" }

/-- A store holding one workflow suspended on a question. -/
def storePending : ConvStore := [("wf-1", convPending)]

/-- A raw task omitting every optional field. -/
def rawTaskOmitted : RawTask :=
  { id := 1
    title := "Add logout button"
    description := "Add a logout control to the header"
    humanRole := Option.none
    humanActionType := Option.none
    humanActionDetail := Option.none
    risk := Option.none
    complexity := Option.none
    dependsOn := Option.none
    requirements := ["a logout control exists"]
    acceptanceCriteria := ["clicking it logs the user out"] }

/-- A sample `output_plan` tool input. -/
def planInput0 : PlanToolInput :=
  { title := "Logout Plan", repo := Option.none, flow := Option.none,
    tasks := [rawTaskOmitted] }

/-- The plan assembled from `planInput0` with no accepted playbook. -/
def plan0 : Plan := assemblePlan planInput0 Option.none

/-- A sample implementation descriptor. -/
def impl0 : Implementation :=
  { type := "pr", identifier := "https://example.com/pr/1",
    diff := Option.none, files := Option.none }

/-- A sample low-confidence review result. -/
def review0 : ReviewResult :=
  { planId := "Logout Plan", confidence := 40,
    confidenceLevel := ConfidenceLevel.low, criteriaResults := [],
    issues := ["issue 1"], summary := "needs work",
    recommendedAction := ReviewAction.iterate "fix issue 1" }

/-- A high-confidence review result whose narrative recommends escalation. -/
def reviewEscalateHigh : ReviewResult :=
  { planId := "Logout Plan", confidence := 95,
    confidenceLevel := ConfidenceLevel.high, criteriaResults := [],
    issues := [], summary := "",
    recommendedAction := ReviewAction.escalate "Major issues require human review" }

/-- A workflow legally driven to the reviewing phase with no recorded review:
create, plan, then `startReview` (the point inside `Orchestrator.review` just
before the session result arrives). -/
def wfReviewingNoReviews : WorkflowState :=
  startReview (completePlanning (startPlanning (createWorkflow "wf-1" 0)
    "add logout" 1) plan0 2) impl0 3

/-! ## Helper lemmas -/

/-- Setting a key in the conversation store makes it retrievable. -/
theorem storeGet_storeSet_self (store : ConvStore) (k : String)
    (v : ConversationState) : storeGet (storeSet store k v) k = Option.some v := by
  induction store with
  | nil => simp [storeSet, storeGet]
  | cons hd tl ih =>
    obtain ⟨k1, v1⟩ := hd
    by_cases h : k1 = k
    · subst h; simp [storeSet, storeGet]
    · simp [storeSet, storeGet, h, ih]

/-- `jsOrStr` is idempotent whenever the default is a nonempty string. -/
theorem jsOrStr_idem (x : Option String) (d : String) (hd : ¬ d = "") :
    jsOrStr (Option.some (jsOrStr x d)) d = jsOrStr x d := by
  cases x with
  | none => simp [jsOrStr, hd]
  | some s =>
    by_cases hs : s = ""
    · simp [jsOrStr, hs, hd]
    · simp [jsOrStr, hs]

/-! ## Claims -/

/-- C1, counterexample: a high-tier review whose narrative recommends
escalation is auto-approved when auto-approve is enabled — `route` does not
let an explicit escalate recommendation override the tier-based default, so
the claim's final clause is false of the code. -/
theorem route_escalate_override_refuted :
    reviewEscalateHigh.recommendedAction =
        ReviewAction.escalate "Major issues require human review" ∧
    (route cfgAuto 0 reviewEscalateHigh).action = RouteAction.approve ∧
    RouteAction.approve ≠ RouteAction.escalate := by
  refine ⟨rfl, by decide, by decide⟩

/-- C1, amended: `route` follows the spec's decision table except that the
escalate recommendation takes effect only in the low tier with iterations
remaining; high and medium tiers ignore the recommendation, and an exhausted
budget escalates regardless of it. -/
theorem route_decision_table (cfg : OrchestratorConfig) (iterations : Int)
    (result : ReviewResult) :
    (route cfg iterations result).action =
      routeSpecAction cfg.autoApproveHighConfidence iterations cfg.maxIterations
        result.confidenceLevel result.recommendedAction := by
  unfold route routeSpecAction
  cases result.confidenceLevel with
  | high => cases cfg.autoApproveHighConfidence <;> simp
  | medium => simp
  | low =>
    by_cases hi : iterations ≥ cfg.maxIterations
    · simp [hi]
    · simp [hi]; cases result.recommendedAction <;> simp

/-- C2: plan assembly maps the raw tasks in order through the defaulting
function, which stamps status `pending` and fills each omitted optional field
with its documented default, and attaches the accepted playbook or the
generic fallback when none was accepted. -/
theorem plan_assembly_defaults (input : PlanToolInput)
    (accepted : Option Playbook) (t : RawTask) :
    (assemblePlan input accepted).title = input.title ∧
    (assemblePlan input accepted).tasks = input.tasks.map applyTaskDefaults ∧
    (assemblePlan input accepted).playbook =
      (match accepted with
       | Option.some pb => pb
       | Option.none => fallbackPlaybook) ∧
    (applyTaskDefaults t).status = "pending" ∧
    (t.humanRole = Option.none → (applyTaskDefaults t).humanRole = "must_verify") ∧
    (t.risk = Option.none → (applyTaskDefaults t).risk = "medium") ∧
    (t.complexity = Option.none → (applyTaskDefaults t).complexity = "medium") ∧
    (t.dependsOn = Option.none → (applyTaskDefaults t).dependsOn = []) := by
  refine ⟨rfl, rfl, rfl, rfl, ?_, ?_, ?_, ?_⟩ <;>
    (intro h; simp [applyTaskDefaults, jsOrStr, jsOrList, h])

/-- C2, witness: on a concrete task omitting every optional field the
defaults appear and the fallback playbook is attached. -/
theorem plan_assembly_defaults_witness :
    (assemblePlan planInput0 Option.none).tasks = [applyTaskDefaults rawTaskOmitted] ∧
    (assemblePlan planInput0 Option.none).playbook = fallbackPlaybook ∧
    (applyTaskDefaults rawTaskOmitted).status = "pending" ∧
    (applyTaskDefaults rawTaskOmitted).humanRole = "must_verify" ∧
    (applyTaskDefaults rawTaskOmitted).risk = "medium" ∧
    (applyTaskDefaults rawTaskOmitted).complexity = "medium" ∧
    (applyTaskDefaults rawTaskOmitted).dependsOn = [] := by
  obtain ⟨h1, h2, h3, h4, h5, h6, h7, h8⟩ :=
    plan_assembly_defaults planInput0 Option.none rawTaskOmitted
  exact ⟨h2, h3, h4, h5 rfl, h6 rfl, h7 rfl, h8 rfl⟩

/-- C9: the task-defaulting step is idempotent — re-reading a defaulted task
as raw input and defaulting again changes nothing, and consequently
reassembling an assembled plan's tasks yields identical tasks. -/
theorem plan_assembly_idempotent (input : PlanToolInput)
    (accepted : Option Playbook) :
    (assemblePlan (planToToolInput (assemblePlan input accepted)) accepted).tasks
      = (assemblePlan input accepted).tasks ∧
    ∀ t : RawTask,
      applyTaskDefaults (taskToRaw (applyTaskDefaults t)) = applyTaskDefaults t := by
  have htask : ∀ t : RawTask,
      applyTaskDefaults (taskToRaw (applyTaskDefaults t)) = applyTaskDefaults t := by
    intro t
    simp only [applyTaskDefaults, taskToRaw, jsOrList]
    rw [jsOrStr_idem t.humanRole "must_verify" (by decide),
        jsOrStr_idem t.risk "medium" (by decide),
        jsOrStr_idem t.complexity "medium" (by decide)]
  constructor
  · have hmap : ∀ l : List RawTask,
        ((l.map applyTaskDefaults).map taskToRaw).map applyTaskDefaults
          = l.map applyTaskDefaults := by
      intro l
      induction l with
      | nil => rfl
      | cons a l ih =>
        simp only [List.map_cons]
        rw [htask a, ih]
    simpa [assemblePlan, planToToolInput] using hmap input.tasks
  · exact htask

/-- C10: for a workflow id with no conversation state, both `hasPending…`
checks answer `true` while both `getPending…` accessors answer `null`. -/
theorem pending_accessors_missing_state (store : ConvStore)
    (workflowId : String) (h : storeGet store workflowId = Option.none) :
    hasPendingQuestions store workflowId = true ∧
    hasPendingPlaybook store workflowId = true ∧
    getPendingQuestions store workflowId = Option.none ∧
    getPendingPlaybook store workflowId = Option.none := by
  simp [hasPendingQuestions, hasPendingPlaybook, getPendingQuestions,
        getPendingPlaybook, h]

/-- C10, witness: the empty store at a concrete id. -/
theorem pending_accessors_missing_state_witness :
    hasPendingQuestions [] "wf-1" = true ∧
    hasPendingPlaybook [] "wf-1" = true ∧
    getPendingQuestions [] "wf-1" = Option.none ∧
    getPendingPlaybook [] "wf-1" = Option.none :=
  pending_accessors_missing_state [] "wf-1" rfl

/-- C5: answering questions when none are pending (state missing, or the
pending-questions slot empty) throws the protocol-violation error and returns
the store unchanged. -/
theorem continueWithAnswers_no_pending (workflowId : String)
    (answers : List (String × String)) (store : ConvStore)
    (responses : List AgentResult)
    (h : getPendingQuestions store workflowId = Option.none) :
    continueWithAnswers workflowId answers store responses =
      (LoopResult.thrown "No pending questions to answer", store) := by
  unfold getPendingQuestions at h
  cases hst : storeGet store workflowId with
  | none => simp [continueWithAnswers, hst]
  | some st =>
    rw [hst] at h
    simp only [Option.some_bind] at h
    simp [continueWithAnswers, hst, h]

/-- C5, witness: a live conversation with an empty pending slot. -/
theorem continueWithAnswers_no_pending_witness :
    continueWithAnswers "wf-1" [] [("wf-1", convFresh)] [] =
      (LoopResult.thrown "No pending questions to answer", [("wf-1", convFresh)]) :=
  continueWithAnswers_no_pending "wf-1" [] [("wf-1", convFresh)] [] (by decide)

/-- C3: the scorer is total, and is conservative on an unparseable narrative —
when no confidence pattern matches, the confidence defaults to 50 and the
derived tier is low (never a success tier); when no recommendation keyword
matches, the recommended action is the iterate action. -/
theorem parseReviewResult_conservative_defaults (response : String)
    (plan : Plan) :
    (findConfidence response.toList = Option.none →
      (parseReviewResult response plan).confidence = 50 ∧
      (parseReviewResult response plan).confidenceLevel = ConfidenceLevel.low) ∧
    (findRecommendation response.toList = Option.none →
      (parseReviewResult response plan).recommendedAction =
        ReviewAction.iterate
          (jsHeadOr (parseIssues response.toList) "Issues found in review")) := by
  have hb : ∀ issues : List String,
      buildRecommendedAction "ITERATE" issues =
        ReviewAction.iterate (jsHeadOr issues "Issues found in review") :=
    fun _ => rfl
  constructor
  · intro h
    simp only [String.toList] at h
    constructor
    · simp [parseReviewResult, h]
    · simp [parseReviewResult, h, getConfidenceLevel]
  · intro h
    simp only [String.toList] at h
    simp [parseReviewResult, h, hb]

/-- C3, witness: a narrative with no recognizable structure. -/
theorem parseReviewResult_conservative_defaults_witness :
    findConfidence ("The implementation looks incomplete.".toList) = Option.none ∧
    findRecommendation ("The implementation looks incomplete.".toList) = Option.none ∧
    (parseReviewResult "The implementation looks incomplete." plan0).confidence = 50 ∧
    (parseReviewResult "The implementation looks incomplete." plan0).confidenceLevel
      = ConfidenceLevel.low ∧
    (parseReviewResult "The implementation looks incomplete." plan0).recommendedAction
      = ReviewAction.iterate "Issues found in review" := by
  have h := parseReviewResult_conservative_defaults
    "The implementation looks incomplete." plan0
  have h1 : findConfidence ("The implementation looks incomplete.".toList)
      = Option.none := by decide
  have h2 : findRecommendation ("The implementation looks incomplete.".toList)
      = Option.none := by decide
  obtain ⟨hc, hl⟩ := h.1 h1
  exact ⟨h1, h2, hc, hl, (h.2 h2).trans (by decide)⟩

/-- C4, counterexample: a workflow suspended on a question, resumed with
answers while the agent call fails — the error surfaces, but the
pending-questions slot has been cleared and the transcript extended, and the
same resume retried afterwards hits the protocol-violation error instead of
retrying the agent call; the claim that pending state and transcript are left
unchanged is false of the code. -/
theorem continueWithAnswers_failed_resume_counterexample :
    hasPendingQuestions storePending "wf-1" = true ∧
    (continueWithAnswers "wf-1" [("q1", "web_app")] storePending
        [AgentResult.failure "network error"]).1
      = LoopResult.agentError "network error" ∧
    hasPendingQuestions (continueWithAnswers "wf-1" [("q1", "web_app")]
        storePending [AgentResult.failure "network error"]).2 "wf-1" = false ∧
    (storeGet (continueWithAnswers "wf-1" [("q1", "web_app")] storePending
        [AgentResult.failure "network error"]).2 "wf-1").map
          ConversationState.messages ≠ Option.some convPending.messages ∧
    (continueWithAnswers "wf-1" [("q1", "web_app")]
        (continueWithAnswers "wf-1" [("q1", "web_app")] storePending
          [AgentResult.failure "network error"]).2
        [AgentResult.failure "network error"]).1
      = LoopResult.thrown "No pending questions to answer" := by
  decide

/-- C4, amended: when the agent call of an answer-questions resume fails, the
error surfaces and the workflow-level state is untouched, but the conversation
record has already been mutated: the pending-questions slot is cleared and the
synthesized tool-result turn appended, so the same resume retried afterwards
fails with the protocol-violation error. -/
theorem continueWithAnswers_failed_resume (workflowId : String)
    (answers : List (String × String)) (store : ConvStore)
    (st : ConversationState) (qs : List ClarifyingQuestion) (e : String)
    (rest : List AgentResult)
    (h1 : storeGet store workflowId = Option.some st)
    (h2 : st.pendingQuestions = Option.some qs) :
    (continueWithAnswers workflowId answers store
        (AgentResult.failure e :: rest)).1 = LoopResult.agentError e ∧
    hasPendingQuestions (continueWithAnswers workflowId answers store
        (AgentResult.failure e :: rest)).2 workflowId = false ∧
    (storeGet (continueWithAnswers workflowId answers store
        (AgentResult.failure e :: rest)).2 workflowId).map
          ConversationState.messages
      = Option.some (st.messages ++
          [Message.user (UserContent.toolResult
            (jsOrStr st.lastToolUseId "questions_answered")
            ("User's answers:\n" ++ formatAnswers qs answers ++
             "\n\nPlease proceed with creating the plan based on these choices."))]) ∧
    (continueWithAnswers workflowId answers
        (continueWithAnswers workflowId answers store
          (AgentResult.failure e :: rest)).2
        (AgentResult.failure e :: rest)).1
      = LoopResult.thrown "No pending questions to answer" := by
  have key : continueWithAnswers workflowId answers store
      (AgentResult.failure e :: rest)
      = (LoopResult.agentError e,
         storeSet store workflowId
           { st with
               messages := st.messages ++
                 [Message.user (UserContent.toolResult
                   (jsOrStr st.lastToolUseId "questions_answered")
                   ("User's answers:\n" ++ formatAnswers qs answers ++
                    "\n\nPlease proceed with creating the plan based on these choices."))],
               pendingQuestions := Option.none }) := by
    simp only [continueWithAnswers, h1, h2, runConversationLoop,
               storeGet_storeSet_self]
  refine ⟨?_, ?_, ?_, ?_⟩
  · rw [key]
  · rw [key]
    simp [hasPendingQuestions, storeGet_storeSet_self]
  · rw [key]
    simp [storeGet_storeSet_self]
  · rw [key]
    simp [continueWithAnswers, storeGet_storeSet_self]

/-- C4, amended, witness: the concrete suspended workflow. -/
theorem continueWithAnswers_failed_resume_witness :
    (continueWithAnswers "wf-1" [("q1", "web_app")] storePending
        [AgentResult.failure "boom"]).1 = LoopResult.agentError "boom" ∧
    hasPendingQuestions (continueWithAnswers "wf-1" [("q1", "web_app")]
        storePending [AgentResult.failure "boom"]).2 "wf-1" = false := by
  have h := continueWithAnswers_failed_resume "wf-1" [("q1", "web_app")]
    storePending convPending [q1] "boom" [] (by decide) (by decide)
  exact ⟨h.1, h.2.1⟩

/-- C6, counterexample: ten consecutive text-only `end_turn` responses are all
consumed by corrective retries — after the tenth the loop is again awaiting
an agent response, and each retry appended two transcript turns; no fixed
small retry ceiling aborts the cycle with a hard failure. -/
theorem text_only_retry_unbounded_counterexample :
    (runConversationLoop "wf-1" [("wf-1", convFresh)]
        (List.replicate 10 textOnlyResponse)).1 = LoopResult.outOfResponses ∧
    ((storeGet (runConversationLoop "wf-1" [("wf-1", convFresh)]
        (List.replicate 10 textOnlyResponse)).2 "wf-1").map
          (fun st => st.messages.length)) = Option.some 21 := by
  decide

/-- C6, amended: the text-only retry loop has no ceiling at all — for every
`n`, a run supplied with `n` text-only responses consumes all of them,
injecting the corrective instruction each time, and ends still awaiting the
next agent response; it never terminates with a hard failure. -/
theorem text_only_retry_no_ceiling (n : Nat) (workflowId : String)
    (store : ConvStore) (st : ConversationState)
    (h : storeGet store workflowId = Option.some st) :
    (runConversationLoop workflowId store
        (List.replicate n textOnlyResponse)).1 = LoopResult.outOfResponses := by
  induction n generalizing store st with
  | zero => simp [runConversationLoop, h, List.replicate]
  | succ n ih =>
    simp only [List.replicate, runConversationLoop, h, textOnlyResponse,
               processBlocks]
    exact ih _ _ (storeGet_storeSet_self store workflowId _)

/-- C6, amended, witness: three text-only responses on a concrete store. -/
theorem text_only_retry_no_ceiling_witness :
    (runConversationLoop "wf-1" [("wf-1", convFresh)]
        (List.replicate 3 textOnlyResponse)).1 = LoopResult.outOfResponses :=
  text_only_retry_no_ceiling 3 "wf-1" [("wf-1", convFresh)] convFresh (by decide)

/-- One public operation preserves "a reviewing-phase workflow has a plan". -/
theorem orchStep_reviewing_has_plan (cfg : OrchestratorConfig)
    (s : WorkflowState) (op : OrchOp)
    (h : s.phase = Phase.reviewing → s.plan ≠ Option.none) :
    (orchStep cfg s op).phase = Phase.reviewing →
      (orchStep cfg s op).plan ≠ Option.none := by
  cases op with
  | planOp req outc now =>
    cases outc with
    | ok p =>
      cases p with
      | none =>
        intro hph
        simp [orchStep, orchPlan, startPlanning] at hph
      | some pl =>
        intro hph
        simp [orchStep, orchPlan, startPlanning, completePlanning]
    | err m =>
      intro hph
      simp [orchStep, orchPlan, startPlanning] at hph
  | answerQuestionsOp outc now =>
    cases outc with
    | ok p =>
      cases p with
      | none => exact h
      | some pl =>
        intro hph
        simp [orchStep, orchAnswerQuestions, completePlanning]
    | err m => exact h
  | acceptPlaybookOp outc now =>
    cases outc with
    | ok p =>
      cases p with
      | none => exact h
      | some pl =>
        intro hph
        simp [orchStep, orchAcceptPlaybook, completePlanning]
    | err m => exact h
  | rejectPlaybookOp fb outc now =>
    cases outc with
    | ok p =>
      cases p with
      | none => exact h
      | some pl =>
        intro hph
        simp [orchStep, orchRejectPlaybook, completePlanning]
    | err m => exact h
  | refinePlanOp fb outc now =>
    by_cases hp : s.plan = Option.none
    · simp only [orchStep, orchRefinePlan, hp, if_pos]
      intro hph
      exact absurd hp (h hph)
    · cases outc with
      | ok p =>
        cases p with
        | none => simp only [orchStep, orchRefinePlan, hp, if_neg]; exact h
        | some pl =>
          intro hph
          simp [orchStep, orchRefinePlan, hp, completePlanning]
      | err m => simp only [orchStep, orchRefinePlan, hp, if_neg]; exact h
  | reviewOp impl outc now =>
    by_cases hp : s.plan = Option.none
    · simp only [orchStep, orchReview, hp, if_pos]
      intro hph
      exact absurd hp (h hph)
    · cases outc with
      | ok r =>
        intro hph
        simp [orchStep, orchReview, hp, completeReview, startReview]
      | err m =>
        intro hph
        simp [orchStep, orchReview, hp, startReview]
  | iterateOp fb outc now =>
    by_cases hi : s.iterations ≥ cfg.maxIterations
    · simp only [orchStep, orchIterate, hi, if_pos]
      exact h
    · cases outc with
      | ok p =>
        cases p with
        | none =>
          intro hph
          simp [orchStep, orchIterate, hi, startIteration] at hph
        | some pl =>
          intro hph
          simp [orchStep, orchIterate, hi, startIteration, completePlanning] at hph
      | err m =>
        intro hph
        simp [orchStep, orchIterate, hi, startIteration] at hph
  | completeOp now =>
    intro hph
    simp [orchStep, orchComplete, completeWorkflow] at hph
  | resetOp newId now =>
    intro hph
    simp [orchStep, orchReset, createWorkflow] at hph

/-- Runs preserve "a reviewing-phase workflow has a plan". -/
theorem runOrch_reviewing_has_plan (cfg : OrchestratorConfig)
    (ops : List OrchOp) (s : WorkflowState)
    (h : s.phase = Phase.reviewing → s.plan ≠ Option.none) :
    (runOrch cfg s ops).phase = Phase.reviewing →
      (runOrch cfg s ops).plan ≠ Option.none := by
  induction ops generalizing s with
  | nil => exact h
  | cons op ops ih => exact ih _ (orchStep_reviewing_has_plan cfg s op h)

/-- C7, counterexample: `complete()` straight after creation yields phase
`complete` with no plan, so the claimed invariant fails for the complete
phase. -/
theorem complete_without_plan_counterexample :
    (runOrch cfgNoAuto (createWorkflow "wf-1" 0) [OrchOp.completeOp 1]).phase
      = Phase.complete ∧
    (runOrch cfgNoAuto (createWorkflow "wf-1" 0) [OrchOp.completeOp 1]).plan
      = Option.none := by
  decide

/-- C7, amended: along every sequence of public operations from a fresh
workflow, the plan is present whenever the phase is `reviewing`; the
`complete` phase carries no such guarantee because `complete()` is
unguarded. -/
theorem reviewing_phase_has_plan (cfg : OrchestratorConfig) (id : String)
    (now : Nat) (ops : List OrchOp)
    (h : (runOrch cfg (createWorkflow id now) ops).phase = Phase.reviewing) :
    (runOrch cfg (createWorkflow id now) ops).plan ≠ Option.none :=
  runOrch_reviewing_has_plan cfg ops (createWorkflow id now)
    (fun hph => by simp [createWorkflow] at hph) h

/-- C7, amended, witness: a run that plans and then reviews is in the
reviewing phase and has a plan. -/
theorem reviewing_phase_has_plan_witness :
    (runOrch cfgNoAuto (createWorkflow "wf-1" 0)
        [OrchOp.planOp "add logout" (SessionOutcome.ok (Option.some plan0)) 1,
         OrchOp.reviewOp impl0 (ReviewOutcome.ok review0) 2]).phase
      = Phase.reviewing ∧
    (runOrch cfgNoAuto (createWorkflow "wf-1" 0)
        [OrchOp.planOp "add logout" (SessionOutcome.ok (Option.some plan0)) 1,
         OrchOp.reviewOp impl0 (ReviewOutcome.ok review0) 2]).plan
      ≠ Option.none := by
  refine ⟨by decide, reviewing_phase_has_plan cfgNoAuto "wf-1" 0 _ (by decide)⟩

/-- C8, counterexample: from a reviewing-phase workflow with zero recorded
review results, `complete()` raises no error and transitions to `complete`,
and even `canTransitionTo` permits the transition — the "at least one Review
Result" guard exists nowhere, and the violation is silent, refuting the
claim. -/
theorem complete_transition_unguarded_counterexample :
    wfReviewingNoReviews.phase = Phase.reviewing ∧
    wfReviewingNoReviews.reviews = [] ∧
    canTransitionTo wfReviewingNoReviews Phase.complete = true ∧
    (orchComplete wfReviewingNoReviews 4).1 = Option.none ∧
    (orchComplete wfReviewingNoReviews 4).2.phase = Phase.complete := by
  decide

/-- C8, amended: `canTransitionTo` permits entering `reviewing` exactly when
the phase is `planning` and a plan exists, and permits entering `complete`
exactly when the phase is `reviewing` (recorded reviews are not required);
`Orchestrator.review` fails with its descriptive error when no plan exists,
while `Orchestrator.complete` never fails and transitions unconditionally. -/
theorem transition_guards (s : WorkflowState) (impl : Implementation)
    (outc : ReviewOutcome) (now : Nat) :
    (canTransitionTo s Phase.reviewing = true ↔
      s.phase = Phase.planning ∧ s.plan ≠ Option.none) ∧
    (canTransitionTo s Phase.complete = true ↔ s.phase = Phase.reviewing) ∧
    (s.plan = Option.none →
      orchReview s impl outc now =
        (Option.some "No plan to review against. Call plan() first.", s)) ∧
    (orchComplete s now).1 = Option.none ∧
    (orchComplete s now).2.phase = Phase.complete := by
  refine ⟨?_, ?_, ?_, rfl, rfl⟩
  · simp [canTransitionTo]
  · simp [canTransitionTo]
  · intro hp
    simp [orchReview, hp]

/-- C8, amended, witness: a fresh workflow (no plan) makes `review` fail with
the descriptive error while `complete` still transitions. -/
theorem transition_guards_witness :
    orchReview (createWorkflow "wf-1" 0) impl0 (ReviewOutcome.err "agent failed") 1
      = (Option.some "No plan to review against. Call plan() first.",
         createWorkflow "wf-1" 0) ∧
    (orchComplete (createWorkflow "wf-1" 0) 1).2.phase = Phase.complete := by
  have h := transition_guards (createWorkflow "wf-1" 0) impl0
    (ReviewOutcome.err "agent failed") 1
  exact ⟨h.2.2.1 rfl, h.2.2.2.2⟩

end Architecta
